import Mathlib

/-!
Shallow embedding of `src/app.py` (Zarcaro APC payment portal, Flask backend)
and proofs about its request handlers.

External collaborators (Firebase auth, Stripe, Plaid, SMTP) are modelled as
function parameters returning `Except String α` (an exception message or a
result), mirroring the Python SDK calls.  The Firestore slice the handlers
touch is an explicit `Store` value threaded through the handlers.
-/

namespace ZarcaroPay

/-- One document of a user's `transactions` subcollection, as written by the
webhook handler (app.py lines 228-236). -/
structure Transaction where
  amount : Int
  currency : String
  payment_intent : Option String
  status : String
  timestamp : Nat
deriving DecidableEq, Repr

/-- The slice of the Firestore document store that the handlers read and
write: `users/{uid}.email`, `users/{uid}/transactions`,
`users/{uid}.plaidAccessToken`, and `contact_messages`. -/
structure Store where
  userEmails : List (String × Option String)
  userTxns : List (String × List Transaction)
  plaidTokens : List (String × String)
  contactMessages : List (String × String × String)
deriving DecidableEq, Repr

/-- The empty document store. -/
def Store.empty : Store := ⟨[], [], [], []⟩

/-- Transactions stored for a user (empty when the user document has no
transactions subcollection). -/
def Store.txnsOf (db : Store) (uid : String) : List Transaction :=
  (db.userTxns.lookup uid).getD []

/-- Appends a transaction document to the subcollection keyed `uid`,
creating the entry when absent; all other users' subcollections are kept. -/
def updTxns (uid : String) (t : Transaction) :
    List (String × List Transaction) → List (String × List Transaction)
  | [] => [(uid, [t])]
  | (k, v) :: rest =>
      if k = uid then (k, v ++ [t]) :: rest else (k, v) :: updTxns uid t rest

/-- Embeds Firestore `.collection("users").document(uid).collection("transactions").add(...)`:
appends a new document unconditionally (a fresh document id is generated each
time, so no existing record is ever overwritten). -/
def Store.addTxn (db : Store) (uid : String) (t : Transaction) : Store :=
  { db with userTxns := updTxns uid t db.userTxns }

/-- Embeds the cached-email lookup of app.py lines 170-173: read
`users/{uid}` and take its `email` field; a missing document or field gives
`None`. -/
def Store.emailOf (db : Store) (uid : String) : Option String :=
  match db.userEmails.lookup uid with
  | some e => e
  | none => none

/-- Embeds `db.collection("users").document(uid).set({"plaidAccessToken": ...}, merge=True)`
(app.py lines 283-285). -/
def Store.setPlaidToken (db : Store) (uid : String) (tok : String) : Store :=
  { db with plaidTokens :=
      if (db.plaidTokens.lookup uid).isSome then
        db.plaidTokens.map (fun p => if p.1 = uid then (p.1, tok) else p)
      else
        db.plaidTokens ++ [(uid, tok)] }

/-- Embeds `db.collection("contact_messages").add({...})` (app.py lines 307-314). -/
def Store.addContact (db : Store) (n e m : String) : Store :=
  { db with contactMessages := db.contactMessages ++ [(n, e, m)] }

/-- JSON body of an HTTP response, by shape: empty, a single error message,
a checkout url, a plain message, a Plaid token payload, or a transaction list. -/
inductive RespBody where
  | empty
  | err (m : String)
  | url (u : String)
  | msg (m : String)
  | plaid (t : String)
  | txns (l : List Transaction)
deriving DecidableEq, Repr

/-- An HTTP response: status code and JSON body. -/
structure HttpResponse where
  status : Nat
  body : RespBody
deriving DecidableEq, Repr

/-- Outcome of running a handler: either an HTTP response it built, or a
Python exception that escaped the handler uncaught. -/
inductive HandlerOutcome where
  | resp (r : HttpResponse)
  | raised (m : String)
deriving DecidableEq, Repr

/-- Python truthiness of an optional string field pulled from a JSON body:
absent and the empty string are falsy. -/
def truthyStr : Option String → Bool
  | none => false
  | some s => s != ""

/-- Tests whether the first list is a leading segment of the second
(character-level model of Python `str.startswith`). -/
def beginsWith : List Char → List Char → Bool
  | [], _ => true
  | _ :: _, [] => false
  | a :: as, b :: bs => a = b && beginsWith as bs

/-- Splits a character list at every space, keeping empty pieces
(character-level model of Python `str.split(" ")`). -/
def splitAtSpaces : List Char → List (List Char)
  | [] => [[]]
  | c :: rest =>
      let r := splitAtSpaces rest
      if c = ' ' then [] :: r
      else
        match r with
        | [] => [[c]]
        | w :: ws => (c :: w) :: ws

/-- Model of Python `auth_header.split(" ")`. -/
def pySplitSpace (s : String) : List String :=
  (splitAtSpaces s.data).map List.asString

/-- Embeds `_verify_firebase_id_token` (app.py lines 128-135).  `verify`
models the external `firebase_admin.auth.verify_id_token` call; `.error`
is a raised exception carrying `str(exc)`. -/
def verify_firebase_id_token (verify : String → Except String String)
    (authHeader : Option String) : Except String String :=
  match authHeader with
  | none => .error "Missing Authorization header"
  | some h =>
      if beginsWith "Bearer ".data h.data then
        verify ((pySplitSpace h).getD 1 "")
      else
        .error "Missing Authorization header"

/-- The JSON value bound to the `amount` key of the checkout request body
before the `int()` conversion at app.py line 159. -/
inductive AmountField where
  | missing
  | int (n : Int)
  | str (s : String)
deriving DecidableEq, Repr

/-- Reads a decimal numeral left to right, failing on any non-digit. -/
def natOfDigits (acc : Nat) : List Char → Option Nat
  | [] => some acc
  | c :: rest =>
      if c.isDigit then natOfDigits (acc * 10 + (c.toNat - 48)) rest
      else none

/-- Model of Python `int(s)` on a string: an optional leading minus sign
followed by at least one digit; anything else raises `ValueError`. -/
def pyIntOfString (s : String) : Option Int :=
  match s.data with
  | [] => none
  | '-' :: rest =>
      match rest with
      | [] => none
      | _ => (natOfDigits 0 rest).map (fun n => -(n : Int))
  | cs => (natOfDigits 0 cs).map (fun n => (n : Int))

/-- Embeds `int(data.get("amount", 0))` (app.py line 159): the default 0 for
a missing key, identity on an integer, integer parsing of a string, and a
raised `ValueError` on a non-numeric string.  This expression sits outside
the handler's try block. -/
def pyIntAmount : AmountField → Except String Int
  | .missing => .ok 0
  | .int n => .ok n
  | .str s =>
      match pyIntOfString s with
      | some n => .ok n
      | none => .error "invalid literal for int() with base 10"

/-- An incoming request to `/create-checkout-session`. -/
structure CheckoutRequest where
  authHeader : Option String
  amount : AmountField
  description : Option String
  success_url : Option String
  cancel_url : Option String
deriving DecidableEq, Repr

/-- The keyword arguments the handler passes to
`stripe.checkout.Session.create` (app.py lines 174-190).  The call site
passes exactly the keywords listed there; in particular it passes no
`client_reference_id`, which the Stripe API therefore leaves unset. -/
structure SessionCreateArgs where
  payment_method_types : List String
  unit_amount : Int
  product_name : String
  mode : String
  customer_email : Option String
  success_url : String
  cancel_url : String
  client_reference_id : Option String
deriving DecidableEq, Repr

/-- Result of one run of the checkout handler: its outcome, the arguments of
the `Session.create` call when one was made, and whether the document store
was read. -/
structure CheckoutResult where
  outcome : HandlerOutcome
  sessionArgs : Option SessionCreateArgs
  dbRead : Bool
deriving DecidableEq, Repr

/-- Embeds `create_checkout_session` (app.py lines 144-193).  `verify` models
the identity provider, `stripeCreate` the payment processor (returning the
hosted session url).  The `int()` conversion precedes the try block, so its
failure is a `raised` outcome; every exception after `try:` is caught and
mapped to a 400 JSON error body. -/
def create_checkout_session (verify : String → Except String String)
    (stripeCreate : SessionCreateArgs → Except String String)
    (db : Store) (req : CheckoutRequest) : CheckoutResult :=
  match pyIntAmount req.amount with
  | .error m => ⟨.raised m, none, false⟩
  | .ok amount =>
      let description := req.description.getD "Legal Services Payment"
      if !(amount != 0 && truthyStr req.success_url && truthyStr req.cancel_url) then
        ⟨.resp ⟨400, .err "amount, success_url and cancel_url are required"⟩, none, false⟩
      else
        match verify_firebase_id_token verify req.authHeader with
        | .error m => ⟨.resp ⟨400, .err m⟩, none, false⟩
        | .ok uid =>
            let args : SessionCreateArgs :=
              { payment_method_types := ["card", "us_bank_account"]
                unit_amount := amount
                product_name := description
                mode := "payment"
                customer_email := db.emailOf uid
                success_url := req.success_url.getD ""
                cancel_url := req.cancel_url.getD ""
                client_reference_id := none }
            match stripeCreate args with
            | .error m => ⟨.resp ⟨400, .err m⟩, some args, true⟩
            | .ok u => ⟨.resp ⟨200, .url u⟩, some args, true⟩

/-- The `data.object` of a `checkout.session.completed` Stripe event, with
the fields the webhook handler reads (app.py lines 223-233). -/
structure StripeSession where
  client_reference_id : Option String
  amount_total : Int
  currency : String
  payment_intent : Option String
  payment_status : String
deriving DecidableEq, Repr

/-- A parsed Stripe event: its `type` and `data.object`. -/
structure StripeEvent where
  type : String
  object : StripeSession
deriving DecidableEq, Repr

/-- An incoming webhook delivery: whether `json.loads(payload)` would
succeed, whether the `Stripe-Signature` header verifies against the
configured secret, and the event the payload encodes when parseable. -/
structure WebhookRequest where
  wellFormedJson : Bool
  sigValid : Bool
  event : StripeEvent
deriving DecidableEq, Repr

/-- Embeds the event-construction step (app.py lines 210-220): with a
configured secret, `stripe.Webhook.construct_event` requires both a parseable
payload and a valid signature; with no secret, `stripe.Event.construct_from(json.loads(payload), ...)`
requires only parseable JSON and performs no authenticity check. -/
def constructEvent (webhook_secret : Option String) (req : WebhookRequest) :
    Option StripeEvent :=
  match webhook_secret with
  | some _ => if req.sigValid && req.wellFormedJson then some req.event else none
  | none => if req.wellFormedJson then some req.event else none

/-- Embeds the attribution step (app.py lines 224-226): a missing or falsy
(empty) `client_reference_id` falls back to the sentinel `"unknown"`. -/
def uidOfSession (s : StripeSession) : String :=
  match s.client_reference_id with
  | some u => if u = "" then "unknown" else u
  | none => "unknown"

/-- The transaction document the webhook writes (app.py lines 228-236);
`now` stands for `firestore.SERVER_TIMESTAMP`. -/
def txnOfSession (now : Nat) (s : StripeSession) : Transaction :=
  { amount := s.amount_total
    currency := s.currency
    payment_intent := s.payment_intent
    status := s.payment_status
    timestamp := now }

/-- Embeds `stripe_webhook` (app.py lines 195-238): construct/verify the
event (400 empty body on failure), write a transaction only for
`checkout.session.completed`, and acknowledge with an empty 200. -/
def stripe_webhook (webhook_secret : Option String) (now : Nat)
    (req : WebhookRequest) (db : Store) : HttpResponse × Store :=
  match constructEvent webhook_secret req with
  | none => (⟨400, .empty⟩, db)
  | some event =>
      if event.type = "checkout.session.completed" then
        (⟨200, .empty⟩, db.addTxn (uidOfSession event.object) (txnOfSession now event.object))
      else
        (⟨200, .empty⟩, db)

/-- Result of the Plaid link-token handler: its response and whether the
Plaid API was called. -/
structure PlaidLinkResult where
  resp : HttpResponse
  plaidCalled : Bool
deriving DecidableEq, Repr

/-- Embeds `plaid_create_link_token` (app.py lines 240-261): identity
verification failure maps to 401; the Plaid call failure maps to 400.  The
handler never touches the document store. -/
def plaid_create_link_token (verify : String → Except String String)
    (plaidCreate : String → Except String String)
    (authHeader : Option String) : PlaidLinkResult :=
  match verify_firebase_id_token verify authHeader with
  | .error m => ⟨⟨401, .err m⟩, false⟩
  | .ok uid =>
      match plaidCreate uid with
      | .error m => ⟨⟨400, .err m⟩, true⟩
      | .ok t => ⟨⟨200, .plaid t⟩, true⟩

/-- Result of the Plaid token-exchange handler: response, resulting store,
and whether the Plaid API was called. -/
structure ExchangeResult where
  resp : HttpResponse
  store : Store
  plaidCalled : Bool
deriving DecidableEq, Repr

/-- Embeds `plaid_exchange_public_token` (app.py lines 263-288): missing
`public_token` is 400 before identity verification; identity failure is 401;
on success the access token is stored with merge semantics. -/
def plaid_exchange_public_token (verify : String → Except String String)
    (plaidExchange : String → Except String String)
    (db : Store) (authHeader : Option String) (public_token : Option String) :
    ExchangeResult :=
  if !(truthyStr public_token) then
    ⟨⟨400, .err "public_token is required"⟩, db, false⟩
  else
    match verify_firebase_id_token verify authHeader with
    | .error m => ⟨⟨401, .err m⟩, db, false⟩
    | .ok uid =>
        match plaidExchange (public_token.getD "") with
        | .error m => ⟨⟨400, .err m⟩, db, true⟩
        | .ok access => ⟨⟨200, .msg "Bank account linked"⟩, db.setPlaidToken uid access, true⟩

/-- The ordering used by `/transactions`: Firestore
`order_by("timestamp", direction=DESCENDING)`. -/
def byTsDesc (a b : Transaction) : Prop := b.timestamp ≤ a.timestamp

instance : DecidableRel byTsDesc :=
  fun a b => inferInstanceAs (Decidable (b.timestamp ≤ a.timestamp))

instance : IsTotal Transaction byTsDesc := ⟨fun _ _ => Nat.le_total _ _⟩

instance : IsTrans Transaction byTsDesc := ⟨fun _ _ _ hab hbc => le_trans hbc hab⟩

/-- Result of the transaction-history handler: response and whether the
document store was read. -/
structure ListTxResult where
  resp : HttpResponse
  dbRead : Bool
deriving DecidableEq, Repr

/-- Embeds `list_transactions` (app.py lines 340-361): identity failure is
401 before any store access; otherwise the user's transactions are returned
ordered by timestamp descending. -/
def list_transactions (verify : String → Except String String)
    (db : Store) (authHeader : Option String) : ListTxResult :=
  match verify_firebase_id_token verify authHeader with
  | .error m => ⟨⟨401, .err m⟩, false⟩
  | .ok uid => ⟨⟨200, .txns ((db.txnsOf uid).insertionSort byTsDesc)⟩, true⟩

/-- An incoming request to `/contact`. -/
structure ContactRequest where
  name : Option String
  email : Option String
  message : Option String
deriving DecidableEq, Repr

/-- Configuration and behaviour of the operator-notification channel:
either one of the SMTP env vars is missing (no send attempted), or the
configured send succeeds, or it raises. -/
inductive SmtpConfig where
  | unconfigured
  | sendOk
  | sendFails (m : String)
deriving DecidableEq, Repr

/-- Embeds `submit_contact_form` (app.py lines 290-338): validate the three
fields, persist to `contact_messages` first (when the store is configured),
then attempt the notification email inside a try/except that logs and
swallows any failure; the response does not depend on the SMTP outcome. -/
def submit_contact_form (smtp : SmtpConfig) (db : Option Store)
    (req : ContactRequest) : HttpResponse × Option Store :=
  if !(truthyStr req.name && truthyStr req.email && truthyStr req.message) then
    (⟨400, .err "name, email and message are required"⟩, db)
  else
    let db1 :=
      match db with
      | some st => some (st.addContact (req.name.getD "") (req.email.getD "") (req.message.getD ""))
      | none => none
    match smtp with
    | .unconfigured => (⟨200, .msg "Contact form submitted"⟩, db1)
    | .sendOk => (⟨200, .msg "Contact form submitted"⟩, db1)
    | .sendFails _ => (⟨200, .msg "Contact form submitted"⟩, db1)

/-! Concrete fixtures used below: an identity provider accepting token `t1`
for user `u1`, a processor that returns a fixed hosted url, and sample
requests. -/

/-- Identity provider accepting exactly the token `t1` for user `u1`. -/
def verifyU1 : String → Except String String :=
  fun t => if t = "t1" then .ok "u1" else .error "invalid token"

/-- Payment processor stub that always returns the same hosted url. -/
def stripeOk : SessionCreateArgs → Except String String :=
  fun _ => .ok "https://checkout.example/session"

/-- Plaid stub that echoes its argument. -/
def plaidEcho : String → Except String String := fun s => .ok s

/-! Helper lemmas shared by the claim theorems. -/

/-- An Authorization header that is absent or does not use the `Bearer `
scheme. -/
def badBearer : Option String → Bool
  | none => true
  | some s => !(beginsWith "Bearer ".data s.data)

/-- A missing or non-Bearer Authorization header makes the verifier raise
before the external identity provider is consulted. -/
theorem verify_badHeader (verify : String → Except String String)
    (hdr : Option String) (hb : badBearer hdr = true) :
    verify_firebase_id_token verify hdr = .error "Missing Authorization header" := by
  cases hdr with
  | none => rfl
  | some s =>
      have hs : beginsWith "Bearer ".data s.data = false := by
        simpa [badBearer] using hb
      simp [verify_firebase_id_token, hs]

/-- Looking up the updated user in `updTxns` sees the appended transaction. -/
theorem lookup_updTxns (uid : String) (t : Transaction) :
    ∀ l : List (String × List Transaction),
      (updTxns uid t l).lookup uid = some (((l.lookup uid).getD []) ++ [t])
  | [] => by simp [updTxns, List.lookup]
  | (k, v) :: rest => by
      rw [updTxns]
      by_cases hk : k = uid
      · subst hk
        simp [List.lookup]
      · have hne : (uid == k) = false := beq_eq_false_iff_ne.mpr (Ne.symm hk)
        simp only [if_neg hk, List.lookup, hne]
        exact lookup_updTxns uid t rest

/-- Adding a transaction appends it to that user's stored list. -/
theorem txnsOf_addTxn (db : Store) (uid : String) (t : Transaction) :
    (db.addTxn uid t).txnsOf uid = db.txnsOf uid ++ [t] := by
  simp [Store.addTxn, Store.txnsOf, lookup_updTxns]

/-- In a list sorted by descending timestamp that permutes `l0 ++ [t]`, an
element `t` with strictly the largest timestamp sits at the head. -/
theorem head_eq_of_strict_max (l0 : List Transaction) (t : Transaction)
    (l : List Transaction) (hperm : l.Perm (l0 ++ [t]))
    (hsort : l.Sorted byTsDesc)
    (hmax : ∀ x ∈ l0, x.timestamp < t.timestamp) :
    l.head? = some t := by
  cases l with
  | nil =>
      have ht : t ∈ ([] : List Transaction) := hperm.mem_iff.mpr (by simp)
      simp at ht
  | cons a rest =>
      have hta : t ∈ a :: rest := hperm.mem_iff.mpr (by simp)
      rcases List.mem_cons.mp hta with h | h
      · simp [h]
      · have hle : byTsDesc a t := (List.sorted_cons.mp hsort).1 t h
        have ha : a ∈ l0 ++ [t] := hperm.mem_iff.mp (List.mem_cons_self a rest)
        rcases List.mem_append.mp ha with h0 | h1
        · exact absurd (hmax a h0) (not_lt.mpr hle)
        · have : a = t := by simpa using h1
          simp [this]

/-- A `checkout.session.completed` session for user `u1` with processor
reference `pi_1`. -/
def dupSession : StripeSession :=
  ⟨some "u1", 5000, "usd", some "pi_1", "paid"⟩

/-- A correctly signed, well-formed delivery of the `dupSession` completion
event; delivering it twice models Stripe's at-least-once retry. -/
def dupDelivery : WebhookRequest :=
  ⟨true, true, ⟨"checkout.session.completed", dupSession⟩⟩

/-- C1: the claim says two webhook deliveries with the same `payment_intent`
for the same user leave at most one Transaction record.  The handler calls
Firestore `.add` unconditionally with no duplicate check, so delivering the
same signed `checkout.session.completed` event twice leaves two records with
`payment_intent` `pi_1` under user `u1`. -/
theorem C1_duplicate_delivery_writes_two_records :
    (((stripe_webhook (some "whsec_1") 2 dupDelivery
        (stripe_webhook (some "whsec_1") 1 dupDelivery Store.empty).2).2.txnsOf
          "u1").filter (fun t => t.payment_intent == some "pi_1")).length = 2 := by
  decide

/-- C2: with a configured webhook secret, a delivery whose signature does not
verify (or whose payload is malformed) gets an empty-bodied 400 response and
the document store is left unchanged. -/
theorem C2_bad_signature_no_write_empty_body (s : String) (now : Nat)
    (req : WebhookRequest) (db : Store)
    (h : (req.sigValid && req.wellFormedJson) = false) :
    stripe_webhook (some s) now req db = (⟨400, .empty⟩, db) := by
  simp [stripe_webhook, constructEvent, h]

/-- A well-formed completion event whose signature fails verification. -/
def badSigDelivery : WebhookRequest :=
  ⟨true, false, ⟨"checkout.session.completed", dupSession⟩⟩

/-- Witness for C2 at a concrete forged delivery. -/
theorem C2_witness :
    (badSigDelivery.sigValid && badSigDelivery.wellFormedJson) = false
    ∧ stripe_webhook (some "whsec_1") 1 badSigDelivery Store.empty =
        (⟨400, .empty⟩, Store.empty) :=
  ⟨by decide,
   C2_bad_signature_no_write_empty_body "whsec_1" 1 badSigDelivery Store.empty (by decide)⟩

/-- C7: a successfully constructed event whose kind is not
`checkout.session.completed` produces no store write and is acknowledged
with an empty 200. -/
theorem C7_other_event_kinds_no_write (secret : Option String) (now : Nat)
    (req : WebhookRequest) (db : Store) (e : StripeEvent)
    (hc : constructEvent secret req = some e)
    (ht : e.type ≠ "checkout.session.completed") :
    stripe_webhook secret now req db = (⟨200, .empty⟩, db) := by
  unfold stripe_webhook
  rw [hc]
  simp [ht]

/-- A signed, well-formed delivery of an `invoice.paid` event. -/
def otherKindDelivery : WebhookRequest :=
  ⟨true, true, ⟨"invoice.paid", dupSession⟩⟩

/-- Witness for C7 at a concrete `invoice.paid` delivery. -/
theorem C7_witness :
    stripe_webhook (some "whsec_1") 3 otherKindDelivery Store.empty =
      (⟨200, .empty⟩, Store.empty) :=
  C7_other_event_kinds_no_write (some "whsec_1") 3 otherKindDelivery Store.empty
    ⟨"invoice.paid", dupSession⟩ (by decide) (by decide)

/-- C10: with no webhook secret configured, the handler performs no
authenticity check at all — the signature flag never matters: a 400 arises
exactly when the payload is unparseable JSON, and any well-formed (possibly
forged) `checkout.session.completed` payload writes a transaction and gets
an empty 200. -/
theorem C10_no_secret_skips_signature_check (now : Nat) (req : WebhookRequest)
    (db : Store) :
    ((stripe_webhook none now req db).1.status = 400 ↔ req.wellFormedJson = false)
    ∧ (req.wellFormedJson = true →
        req.event.type = "checkout.session.completed" →
        stripe_webhook none now req db =
          (⟨200, .empty⟩,
            db.addTxn (uidOfSession req.event.object) (txnOfSession now req.event.object)))
    ∧ (req.wellFormedJson = false →
        stripe_webhook none now req db = (⟨400, .empty⟩, db)) := by
  unfold stripe_webhook constructEvent
  cases hw : req.wellFormedJson with
  | false => simp
  | true =>
      by_cases ht : req.event.type = "checkout.session.completed" <;>
        simp [ht]

/-- A forged (unsigned) but well-formed completion payload for user `u9`. -/
def forgedDelivery : WebhookRequest :=
  ⟨true, false, ⟨"checkout.session.completed", ⟨some "u9", 700, "usd", some "pi_9", "paid"⟩⟩⟩

/-- Witness for C10: the forged delivery is accepted and recorded although
its signature flag is false. -/
theorem C10_witness :
    stripe_webhook none 9 forgedDelivery Store.empty =
      (⟨200, .empty⟩,
        Store.empty.addTxn (uidOfSession forgedDelivery.event.object)
          (txnOfSession 9 forgedDelivery.event.object)) :=
  (C10_no_secret_skips_signature_check 9 forgedDelivery Store.empty).2.1 rfl rfl

/-- The HTTP status of a handler outcome, when it produced a response. -/
def outcomeStatus : HandlerOutcome → Option Nat
  | .resp r => some r.status
  | .raised _ => none

/-- A well-formed authenticated checkout request for user `u1`. -/
def checkoutReqU1 : CheckoutRequest :=
  ⟨some "Bearer t1", .int 5000, none, some "https://x/ok", some "https://x/cancel"⟩

/-- The completion event the processor would deliver for the session created
from `checkoutReqU1`: `Session.create` was called without
`client_reference_id`, so the echoed session carries none. -/
def resultingDelivery : WebhookRequest :=
  ⟨true, true, ⟨"checkout.session.completed", ⟨none, 5000, "usd", some "pi_3", "paid"⟩⟩⟩

/-- C3: the claim says the checkout session is tagged with the verified
user's ID as correlation token.  The `Session.create` call at app.py lines
174-190 passes no `client_reference_id`, so the session request for user
`u1` carries none, and the completion webhook attributes the resulting
transaction to the `unknown` bucket instead of `u1`. -/
theorem C3_session_missing_correlation_token :
    (create_checkout_session verifyU1 stripeOk Store.empty checkoutReqU1).sessionArgs =
      some { payment_method_types := ["card", "us_bank_account"]
             unit_amount := 5000
             product_name := "Legal Services Payment"
             mode := "payment"
             customer_email := none
             success_url := "https://x/ok"
             cancel_url := "https://x/cancel"
             client_reference_id := none }
    ∧ (stripe_webhook (some "whsec_1") 4 resultingDelivery Store.empty).2.txnsOf "u1" = []
    ∧ ((stripe_webhook (some "whsec_1") 4 resultingDelivery Store.empty).2.txnsOf
        "unknown").length = 1 := by
  decide

/-- C4 (amended): a missing or non-Bearer Authorization header is rejected
before any document-store access on all four protected endpoints, with
status 401 on the Plaid and transactions endpoints (for the token exchange,
once its `public_token` presence check passes), but with status 400 on
`create-checkout-session`, whose broad except clause maps the failure to 400
(and whose amount parsing must succeed for any response to be produced). -/
theorem C4_amended_reject_before_store (verify : String → Except String String)
    (plaidCreate plaidExchange : String → Except String String)
    (stripeCreate : SessionCreateArgs → Except String String)
    (db : Store) (hdr : Option String) (hbad : badBearer hdr = true) :
    ((plaid_create_link_token verify plaidCreate hdr).resp.status = 401
      ∧ (plaid_create_link_token verify plaidCreate hdr).plaidCalled = false)
    ∧ (∀ pt : Option String, truthyStr pt = true →
        (plaid_exchange_public_token verify plaidExchange db hdr pt).resp.status = 401
        ∧ (plaid_exchange_public_token verify plaidExchange db hdr pt).store = db
        ∧ (plaid_exchange_public_token verify plaidExchange db hdr pt).plaidCalled = false)
    ∧ ((list_transactions verify db hdr).resp.status = 401
      ∧ (list_transactions verify db hdr).dbRead = false)
    ∧ (∀ req : CheckoutRequest, req.authHeader = hdr →
        ∀ a : Int, pyIntAmount req.amount = Except.ok a →
        outcomeStatus (create_checkout_session verify stripeCreate db req).outcome = some 400
        ∧ (create_checkout_session verify stripeCreate db req).sessionArgs = none
        ∧ (create_checkout_session verify stripeCreate db req).dbRead = false) := by
  have hv := verify_badHeader verify hdr hbad
  refine ⟨?_, ?_, ?_, ?_⟩
  · simp [plaid_create_link_token, hv]
  · intro pt hpt
    simp [plaid_exchange_public_token, hpt, hv]
  · simp [list_transactions, hv]
  · intro req hreq a ha
    unfold create_checkout_session
    rw [ha]
    by_cases hc : (a != 0 && truthyStr req.success_url && truthyStr req.cancel_url) = true
    · rw [hreq]
      simp [hc, hv, outcomeStatus]
    · rw [Bool.not_eq_true] at hc
      simp [hc, outcomeStatus]

/-- An otherwise valid checkout request with no Authorization header. -/
def noAuthCheckout : CheckoutRequest :=
  ⟨none, .int 5000, none, some "https://x/ok", some "https://x/cancel"⟩

/-- C4 counterexample: with no Authorization header and an otherwise valid
body, `create-checkout-session` responds 400, not 401 as the claim states. -/
theorem C4_counterexample_checkout_400 :
    outcomeStatus (create_checkout_session verifyU1 stripeOk Store.empty noAuthCheckout).outcome
      = some 400
    ∧ outcomeStatus (create_checkout_session verifyU1 stripeOk Store.empty noAuthCheckout).outcome
      ≠ some 401 := by
  decide

/-- Witness for the amended C4 at concrete requests with no header. -/
theorem C4_amended_witness :
    (plaid_create_link_token verifyU1 plaidEcho none).resp.status = 401
    ∧ (plaid_exchange_public_token verifyU1 plaidEcho Store.empty none
        (some "pub-1")).resp.status = 401
    ∧ (list_transactions verifyU1 Store.empty none).resp.status = 401
    ∧ (create_checkout_session verifyU1 stripeOk Store.empty noAuthCheckout).sessionArgs
        = none := by
  have h := C4_amended_reject_before_store verifyU1 plaidEcho plaidEcho stripeOk
    Store.empty none (by decide)
  exact ⟨h.1.1, (h.2.1 (some "pub-1") (by decide)).1, h.2.2.1.1,
    (h.2.2.2 noAuthCheckout rfl 5000 rfl).2.1⟩

/-- An otherwise valid authenticated checkout request with amount -5. -/
def negAmountCheckout : CheckoutRequest :=
  ⟨some "Bearer t1", .int (-5), none, some "https://x/ok", some "https://x/cancel"⟩

/-- C5 counterexample: the claim says a negative amount yields 400 without
calling the processor; with amount -5 the validation (Python truthiness of
`all([...])`) passes, the processor is called, and the handler returns the
hosted url with status 200. -/
theorem C5_counterexample_negative_calls_processor :
    (create_checkout_session verifyU1 stripeOk Store.empty negAmountCheckout).sessionArgs.isSome
      = true
    ∧ (create_checkout_session verifyU1 stripeOk Store.empty negAmountCheckout).outcome =
        .resp ⟨200, .url "https://checkout.example/session"⟩ := by
  decide

/-- C5 (amended): only a falsy amount (zero, hence also a missing one,
which defaults to 0) is rejected with 400 and no processor call; a negative
integer amount passes the truthiness validation and the processor is called
with it; a non-numeric amount raises an uncaught `ValueError` instead of
producing a 400 error body. -/
theorem C5_amended_truthiness_validation :
    (∀ (verify : String → Except String String)
       (stripeCreate : SessionCreateArgs → Except String String)
       (db : Store) (req : CheckoutRequest),
        pyIntAmount req.amount = Except.ok 0 →
        create_checkout_session verify stripeCreate db req =
          ⟨.resp ⟨400, .err "amount, success_url and cancel_url are required"⟩, none, false⟩)
    ∧ (∀ (stripeCreate : SessionCreateArgs → Except String String)
         (db : Store) (n : Int) (desc : Option String) (su cu : String),
        n < 0 → su ≠ "" → cu ≠ "" →
        ((create_checkout_session verifyU1 stripeCreate db
            ⟨some "Bearer t1", .int n, desc, some su, some cu⟩).sessionArgs).isSome = true)
    ∧ (∀ (verify : String → Except String String)
         (stripeCreate : SessionCreateArgs → Except String String)
         (db : Store) (req : CheckoutRequest) (s : String),
        req.amount = .str s → pyIntOfString s = none →
        (create_checkout_session verify stripeCreate db req).outcome =
          .raised "invalid literal for int() with base 10") := by
  refine ⟨?_, ?_, ?_⟩
  · intro verify sc db req h
    unfold create_checkout_session
    rw [h]
    simp
  · intro sc db n desc su cu hn hsu hcu
    have hn0 : (n != 0) = true := bne_iff_ne.mpr (ne_of_lt hn)
    have hsu2 : truthyStr (some su) = true := by
      simpa [truthyStr] using bne_iff_ne.mpr hsu
    have hcu2 : truthyStr (some cu) = true := by
      simpa [truthyStr] using bne_iff_ne.mpr hcu
    have hverify : verify_firebase_id_token verifyU1 (some "Bearer t1") = .ok "u1" := rfl
    unfold create_checkout_session
    rw [show pyIntAmount (AmountField.int n) = Except.ok n from rfl]
    simp only [hn0, hsu2, hcu2, hverify, Bool.and_self, Bool.true_and, Bool.and_true,
      Bool.not_true, Bool.false_eq_true, if_false]
    split <;> rfl
  · intro verify sc db req s hs hparse
    unfold create_checkout_session
    rw [hs, show pyIntAmount (AmountField.str s) =
      Except.error "invalid literal for int() with base 10" by
        simp [pyIntAmount, hparse]]

/-- Witness for the amended C5 at concrete requests: a zero amount is
rejected without a processor call, amount -7 reaches the processor, and a
non-numeric amount raises. -/
theorem C5_amended_witness :
    create_checkout_session verifyU1 stripeOk Store.empty
      ⟨some "Bearer t1", .int 0, none, some "https://x/ok", some "https://x/cancel"⟩ =
      ⟨.resp ⟨400, .err "amount, success_url and cancel_url are required"⟩, none, false⟩
    ∧ ((create_checkout_session verifyU1 stripeOk Store.empty
        ⟨some "Bearer t1", .int (-7), none, some "https://x/ok",
          some "https://x/cancel"⟩).sessionArgs).isSome = true
    ∧ (create_checkout_session verifyU1 stripeOk Store.empty
        ⟨some "Bearer t1", .str "fifty", none, some "https://x/ok",
          some "https://x/cancel"⟩).outcome =
        .raised "invalid literal for int() with base 10" :=
  ⟨C5_amended_truthiness_validation.1 verifyU1 stripeOk Store.empty _ rfl,
   C5_amended_truthiness_validation.2.1 stripeOk Store.empty (-7) none
     "https://x/ok" "https://x/cancel" (by decide) (by decide) (by decide),
   C5_amended_truthiness_validation.2.2 verifyU1 stripeOk Store.empty _ "fifty" rfl rfl⟩

/-- An otherwise valid checkout request whose amount is a non-numeric
string. -/
def nanAmountCheckout : CheckoutRequest :=
  ⟨some "Bearer t1", .str "lots", none, some "https://x/ok", some "https://x/cancel"⟩

/-- C6 counterexample: the claim says every failure is converted to an HTTP
response; a non-numeric `amount` makes `int(data.get("amount", 0))` (which
sits before the handler's try block) raise, and the exception leaves the
handler uncaught. -/
theorem C6_counterexample_uncaught_value_error :
    (create_checkout_session verifyU1 stripeOk Store.empty nanAmountCheckout).outcome =
      .raised "invalid literal for int() with base 10" := by
  decide

/-- C6 (amended): the only failure that escapes a handler uncaught is the
amount conversion of `create-checkout-session`, which precedes its try
block; whenever that handler's outcome is a raised exception, the exception
is exactly the amount-conversion error. -/
theorem C6_amended_only_amount_parse_raises (verify : String → Except String String)
    (stripeCreate : SessionCreateArgs → Except String String)
    (db : Store) (req : CheckoutRequest) (m : String)
    (h : (create_checkout_session verify stripeCreate db req).outcome =
      HandlerOutcome.raised m) :
    pyIntAmount req.amount = Except.error m := by
  cases hp : pyIntAmount req.amount with
  | error m2 =>
      unfold create_checkout_session at h
      rw [hp] at h
      simp only [HandlerOutcome.raised.injEq] at h
      rw [h]
  | ok a =>
      exfalso
      unfold create_checkout_session at h
      rw [hp] at h
      simp only [] at h
      split at h
      · simp at h
      · split at h
        · simp at h
        · split at h <;> simp at h

/-- Witness for the amended C6 at a concrete raising request. -/
theorem C6_amended_witness :
    pyIntAmount (AmountField.str "NaN") =
      Except.error "invalid literal for int() with base 10" :=
  C6_amended_only_amount_parse_raises verifyU1 stripeOk Store.empty
    ⟨some "Bearer t1", .str "NaN", none, some "https://x/ok", some "https://x/cancel"⟩
    "invalid literal for int() with base 10" (by decide)

/-- C8: for a verified user, the transactions endpoint reads the store and
returns exactly the user's stored records (a permutation of them, of the
same length) ordered by timestamp descending, and a newly inserted
transaction with a strictly later timestamp appears at position 0 on the
next read. -/
theorem C8_history_sorted_descending (verify : String → Except String String)
    (db : Store) (hdr : Option String) (uid : String)
    (hv : verify_firebase_id_token verify hdr = .ok uid) :
    ∃ l, list_transactions verify db hdr = ⟨⟨200, .txns l⟩, true⟩
      ∧ l.Perm (db.txnsOf uid)
      ∧ l.length = (db.txnsOf uid).length
      ∧ l.Sorted byTsDesc
      ∧ ∀ t : Transaction, (∀ x ∈ db.txnsOf uid, x.timestamp < t.timestamp) →
          ∃ l2, list_transactions verify (db.addTxn uid t) hdr = ⟨⟨200, .txns l2⟩, true⟩
            ∧ l2.head? = some t := by
  refine ⟨(db.txnsOf uid).insertionSort byTsDesc, ?_, ?_, ?_, ?_, ?_⟩
  · unfold list_transactions
    rw [hv]
  · exact List.perm_insertionSort byTsDesc _
  · exact (List.perm_insertionSort byTsDesc _).length_eq
  · exact List.sorted_insertionSort byTsDesc _
  · intro t hmax
    refine ⟨((db.addTxn uid t).txnsOf uid).insertionSort byTsDesc, ?_, ?_⟩
    · unfold list_transactions
      rw [hv]
    · apply head_eq_of_strict_max (db.txnsOf uid) t
      · rw [txnsOf_addTxn]
        exact List.perm_insertionSort byTsDesc _
      · exact List.sorted_insertionSort byTsDesc _
      · exact hmax

/-- A store holding two transactions for user `u1`, timestamps 4 and 7. -/
def dbTwo : Store :=
  ⟨[("u1", some "u1@x.io")],
   [("u1", [⟨100, "usd", some "pi_a", "paid", 4⟩, ⟨500, "usd", some "pi_b", "paid", 7⟩])],
   [], []⟩

/-- A later transaction, timestamp 9. -/
def newTx : Transaction := ⟨900, "usd", some "pi_c", "paid", 9⟩

/-- Witness for C8: after inserting the timestamp-9 transaction, the next
read puts it at position 0. -/
theorem C8_witness :
    ∃ l2, list_transactions verifyU1 (dbTwo.addTxn "u1" newTx) (some "Bearer t1") =
        ⟨⟨200, .txns l2⟩, true⟩
      ∧ l2.head? = some newTx := by
  obtain ⟨l, -, -, -, -, hins⟩ :=
    C8_history_sorted_descending verifyU1 dbTwo (some "Bearer t1") "u1" rfl
  exact hins newTx (by decide)

/-- C9: a contact submission with name, email and message all present (and
truthy) persists the message to `contact_messages` and returns success, for
every state of the notification channel — unconfigured, succeeding, or
failing — so the SMTP outcome never changes the HTTP response. -/
theorem C9_contact_persists_and_succeeds (smtp : SmtpConfig) (st : Store)
    (req : ContactRequest) (n e m : String)
    (hn : req.name = some n) (he : req.email = some e) (hm : req.message = some m)
    (hn2 : n ≠ "") (he2 : e ≠ "") (hm2 : m ≠ "") :
    submit_contact_form smtp (some st) req =
      (⟨200, .msg "Contact form submitted"⟩, some (st.addContact n e m)) := by
  unfold submit_contact_form
  rw [hn, he, hm]
  have h1 : truthyStr (some n) = true := by
    simpa [truthyStr] using bne_iff_ne.mpr hn2
  have h2 : truthyStr (some e) = true := by
    simpa [truthyStr] using bne_iff_ne.mpr he2
  have h3 : truthyStr (some m) = true := by
    simpa [truthyStr] using bne_iff_ne.mpr hm2
  simp only [h1, h2, h3, Bool.and_self, Bool.not_true, Bool.false_eq_true, if_false,
    Option.getD_some]
  cases smtp <;> rfl

/-- A contact request with the three fields present. -/
def contactReq1 : ContactRequest := ⟨some "Ada", some "ada@x.io", some "hello"⟩

/-- Witness for C9 with a failing notification channel. -/
theorem C9_witness :
    submit_contact_form (.sendFails "smtp down") (some Store.empty) contactReq1 =
      (⟨200, .msg "Contact form submitted"⟩,
        some (Store.empty.addContact "Ada" "ada@x.io" "hello")) :=
  C9_contact_persists_and_succeeds (.sendFails "smtp down") Store.empty contactReq1
    "Ada" "ada@x.io" "hello" rfl rfl rfl (by decide) (by decide) (by decide)

end ZarcaroPay
